import Mathlib

/-!
Verification of the AdiOS multi-tenant serving plugin.

The Rust source (`src/main.rs`) declares the data model (deployment
records, lifecycle statuses, metrics, configuration) together with the
plugin scaffold (metadata, pricing tiers, a display loop).  The deployment
store, capacity admission and lifecycle state machine are specified but do
not appear in the source; those operations are modelled from the spec and
marked as such in their doc comments.  Everything else is translated
directly from `src/main.rs`.
-/

/-- Lifecycle states of a tenant deployment (`enum DeploymentStatus`). -/
inductive DeploymentStatus where
  | Deploying
  | Running
  | Scaling
  | Stopped
  | Failed
deriving DecidableEq, Repr

/-- One tenant deployment record (`struct TenantDeployment`).  Uuids are
modelled as naturals, timestamps (`DateTime<Utc>`) as naturals, the `u64`
request counter as a natural. -/
structure TenantDeployment where
  id : Nat
  tenant_id : String
  model_name : String
  status : DeploymentStatus
  created_at : Nat
  last_request : Nat
  request_count : Nat
deriving DecidableEq, Repr

/-- The deployment table: the source keeps a `HashMap<Uuid, TenantDeployment>`;
we model it as a list of records searched by `id` (first match), with key
uniqueness stated as a hypothesis where a proof needs it. -/
abbrev Store := List TenantDeployment

/-- Error kinds of the spec (section 7). -/
inductive ServingError where
  | NotFound
  | DuplicateTenantModel
  | InvalidTransition
  | InvalidState
  | DeploymentNotServing
  | ReplicaLimitExceeded
  | TenantQuarantined
  | ExclusiveGpuRequired
  | ProvisioningTimeout
deriving DecidableEq, Repr

/-- System metrics (`struct SystemMetrics`).  `average_latency_ms` is an
`f64` in the source on which no arithmetic is ever performed, so it is
modelled exactly as a rational number. -/
structure SystemMetrics where
  total_deployments : Nat
  active_deployments : Nat
  total_requests : Nat
  average_latency_ms : Rat
deriving DecidableEq, Repr

/-- Plugin configuration (`struct PluginConfig`). -/
structure PluginConfig where
  auto_scaling : Bool
  max_replicas_per_tenant : Nat
  resource_isolation : Bool
  enable_gpu_sharing : Bool
deriving DecidableEq, Repr

/-- Plugin state (`struct PluginState`). -/
structure PluginState where
  active_deployments : Store
  system_metrics : SystemMetrics
  config : PluginConfig
deriving DecidableEq, Repr

/-- Plugin metadata (`struct PluginInfo`). -/
structure PluginInfo where
  id : String
  name : String
  version : String
  description : String
  author : String
  category : String
deriving DecidableEq, Repr

/-- The plugin (`struct MultiTenantServingPlugin`): metadata plus the
lock-guarded state (the lock itself has no observable content here). -/
structure MultiTenantServingPlugin where
  info : PluginInfo
  state : PluginState
deriving DecidableEq, Repr

/-- A pricing tier (`struct PricingTier`), price in cents (`u32`). -/
structure PricingTier where
  name : String
  price : Nat
  features : List String
deriving DecidableEq, Repr

/-- Translation of `impl Default for PluginState` (`src/main.rs:81-99`):
empty deployment map, zeroed counters, the hardcoded `45.2` latency, and
the fixed configuration. -/
def PluginState.default : PluginState :=
  { active_deployments := []
    system_metrics :=
      { total_deployments := 0
        active_deployments := 0
        total_requests := 0
        average_latency_ms := 452 / 10 }
    config :=
      { auto_scaling := true
        max_replicas_per_tenant := 10
        resource_isolation := true
        enable_gpu_sharing := true } }

/-- Translation of `MultiTenantServingPlugin::new` (`src/main.rs:101-118`).
`env!("CARGO_PKG_VERSION")` is a compile-time constant supplied by Cargo,
modelled as the argument `cargoPkgVersion`.  The Rust function returns
`anyhow::Result<Self>` and its body has no fallible step. -/
def MultiTenantServingPlugin.new (cargoPkgVersion : String) :
    Except String MultiTenantServingPlugin :=
  .ok
    { info :=
        { id := "adios.multi-tenant-serving"
          name := "AdiOS Multi-Tenant Serving"
          version := cargoPkgVersion
          description := "Enterprise multi-tenant model serving infrastructure"
          author := "TridentBiz Team"
          category := "enterprise" }
      state := PluginState.default }

/-- Translation of method `name` (`src/main.rs:120-122`). -/
def MultiTenantServingPlugin.name (p : MultiTenantServingPlugin) : String :=
  p.info.name

/-- Translation of method `version` (`src/main.rs:124-126`). -/
def MultiTenantServingPlugin.version (p : MultiTenantServingPlugin) : String :=
  p.info.version

/-- Translation of method `description` (`src/main.rs:128-130`). -/
def MultiTenantServingPlugin.description (p : MultiTenantServingPlugin) : String :=
  p.info.description

/-- Translation of `pricing_tiers` (`src/main.rs:132-167`): a literal
vector, built without reading `self`. -/
def MultiTenantServingPlugin.pricing_tiers (_p : MultiTenantServingPlugin) :
    List PricingTier :=
  [ { name := "Starter"
      price := 500000
      features :=
        [ "Up to 5 tenant deployments"
        , "Basic auto-scaling"
        , "Standard SLA (99.9%)"
        , "Email support" ] }
  , { name := "Professional"
      price := 2500000
      features :=
        [ "Up to 50 tenant deployments"
        , "Advanced auto-scaling"
        , "GPU sharing capabilities"
        , "Enhanced SLA (99.95%)"
        , "Priority support" ] }
  , { name := "Enterprise"
      price := 10000000
      features :=
        [ "Unlimited tenant deployments"
        , "Custom resource allocation"
        , "Advanced GPU optimization"
        , "Premium SLA (99.99%)"
        , "Dedicated support team" ] } ]

/-- Renders a cent amount the way `run`/`run_ui` print it
(`price as f32 / 100.0` with two decimals): whole dollars, a dot, and a
two-digit fraction.  All tier prices are multiples of 100 cents, so the
`f32` value is exact. -/
def formatCents (c : Nat) : String :=
  toString (c / 100) ++ "." ++
    (if c % 100 < 10 then "0" ++ toString (c % 100) else toString (c % 100))

/-- Output lines of `run_ui` (`src/main.rs:193-220`): the banner, command
list, feature list and pricing lines printed by the method.  `run_ui`
takes `&self` and only reads `pricing_tiers`; it never touches `state`. -/
def MultiTenantServingPlugin.run_ui_output (p : MultiTenantServingPlugin) :
    List String :=
  [ "=== AdiOS Multi-Tenant Serving Plugin ==="
  , "Enterprise multi-tenant model serving infrastructure"
  , ""
  , "Available commands:"
  , "  1. Deploy model for tenant"
  , "  2. View deployment status"
  , "  3. Show pricing tiers"
  , "  4. Exit"
  , ""
  , "Key Features:"
  , "  • Multi-tenant isolation"
  , "  • Auto-scaling capabilities"
  , "  • GPU sharing optimization"
  , "  • Advanced monitoring"
  , ""
  , "Pricing Tiers:" ]
  ++ (p.pricing_tiers.map
        (fun t => "  • " ++ t.name ++ " - $" ++ formatCents t.price ++ "/month"))
  ++ [ ""
     , "Plugin is ready for multi-tenant serving!" ]

/-- Log lines of `run` (`src/main.rs:170-191`) before it delegates to
`run_ui`.  `run` takes `&self` and reads only `info` and the tier list. -/
def MultiTenantServingPlugin.run_output (p : MultiTenantServingPlugin) :
    List String :=
  [ "Starting AdiOS Multi-Tenant Serving Plugin v" ++ p.version
  , "Plugin: " ++ p.name
  , "Description: " ++ p.description
  , "Available pricing tiers:" ]
  ++ (p.pricing_tiers.flatMap
        (fun t =>
          ("  " ++ t.name ++ " - $" ++ formatCents t.price ++ "/month")
            :: t.features.map (fun f => "    • " ++ f)))
  ++ [ "Starting multi-tenant serving interface..." ]
  ++ p.run_ui_output

/-- Search for the first record with the given id (the `HashMap` lookup of
the modelled store). -/
def findById : Store → Nat → Option TenantDeployment
  | [], _ => none
  | d :: rest, did => if d.id = did then some d else findById rest did

/-- Apply `f` to the first record with the given id. -/
def updateById (f : TenantDeployment → TenantDeployment) :
    Store → Nat → Store
  | [], _ => []
  | d :: rest, did =>
      if d.id = did then f d :: rest else d :: updateById f rest did

/-- Delete the first record with the given id. -/
def eraseById : Store → Nat → Store
  | [], _ => []
  | d :: rest, did =>
      if d.id = did then rest else d :: eraseById rest did

/-- Modelled from the spec: the allowed-transitions table of the
LifecycleStateMachine (section 4.3); the source only declares
`DeploymentStatus` and implements no transition logic. -/
def allowedTransition : DeploymentStatus → DeploymentStatus → Bool
  | .Deploying, .Running => true
  | .Deploying, .Failed => true
  | .Running, .Scaling => true
  | .Running, .Stopped => true
  | .Running, .Failed => true
  | .Scaling, .Running => true
  | .Scaling, .Failed => true
  | _, _ => false

/-- A status is non-terminal when it is Deploying, Running or Scaling
(section 4.3: terminal states are Stopped and Failed). -/
def nonTerminalStatus : DeploymentStatus → Bool
  | .Deploying => true
  | .Running => true
  | .Scaling => true
  | .Stopped => false
  | .Failed => false

/-- Number of a tenant's non-terminal deployments, the quantity counted by
capacity admission (section 4.2, step 2). -/
def nonTerminalCount (s : Store) (tid : String) : Nat :=
  s.countP (fun d => d.tenant_id == tid && nonTerminalStatus d.status)

/-- A tenant has a Failed deployment (section 4.2, step 1). -/
def hasFailedDeployment (s : Store) (tid : String) : Bool :=
  s.any (fun d => d.tenant_id == tid && d.status == .Failed)

/-- An active (non-Stopped/Failed) deployment for the pair already exists
(section 4.1, `create`). -/
def hasActiveDup (s : Store) (tid m : String) : Bool :=
  s.any (fun d =>
    d.tenant_id == tid && d.model_name == m &&
      !(d.status == .Stopped) && !(d.status == .Failed))

/-- Modelled from the spec: `DeploymentStore.create` (section 4.1); absent
from the source.  Inserts a record with status Deploying, both timestamps
`now`, counter 0, under the fresh id `fid`; fails with
`DuplicateTenantModel` when an active deployment for the pair exists. -/
def create (s : Store) (tid m : String) (now fid : Nat) :
    Except ServingError Store :=
  if hasActiveDup s tid m then .error .DuplicateTenantModel
  else
    .ok
      ({ id := fid
         tenant_id := tid
         model_name := m
         status := .Deploying
         created_at := now
         last_request := now
         request_count := 0 } :: s)

/-- Modelled from the spec: `DeploymentStore.update_status` (section 4.1);
absent from the source.  Fails with `NotFound` when the id is absent and
with `InvalidTransition` when the table forbids the move. -/
def update_status (s : Store) (did : Nat) (st : DeploymentStatus) :
    Except ServingError Store :=
  match findById s did with
  | none => .error .NotFound
  | some d =>
      if allowedTransition d.status st then
        .ok (updateById (fun e => { e with status := st }) s did)
      else .error .InvalidTransition

/-- Modelled from the spec: `DeploymentStore.record_request` (section 4.1);
absent from the source.  Increments the counter and stamps `last_request`;
fails with `NotFound` when absent and `DeploymentNotServing` when the
status is not Running. -/
def record_request (s : Store) (did now : Nat) :
    Except ServingError Store :=
  match findById s did with
  | none => .error .NotFound
  | some d =>
      if d.status = .Running then
        .ok (updateById
          (fun e => { e with request_count := e.request_count + 1
                             last_request := now }) s did)
      else .error .DeploymentNotServing

/-- Modelled from the spec: `DeploymentStore.remove` (section 4.1); absent
from the source.  Only permitted in a terminal state, `InvalidState`
otherwise; `NotFound` when the id is absent (section 4.1, `get`). -/
def remove (s : Store) (did : Nat) : Except ServingError Store :=
  match findById s did with
  | none => .error .NotFound
  | some d =>
      if d.status = .Stopped ∨ d.status = .Failed then
        .ok (eraseById s did)
      else .error .InvalidState

/-- Decision of capacity admission (section 4.2). -/
inductive AdmitDecision where
  | Allow
  | Deny (reason : ServingError)
deriving DecidableEq, Repr

/-- Modelled from the spec: `CapacityAdmission.admit` (section 4.2); absent
from the source.  Policy evaluated in order: quarantine of tenants with a
Failed deployment under resource isolation, then the per-tenant replica
limit, then exclusive-GPU denial.  Whether the request would share a GPU
slot claimed by another tenant depends on an unmodelled GPU inventory and
is passed in as `sharesClaimedGpuSlot`. -/
def admission (cfg : PluginConfig) (s : Store) (tid : String)
    (requested : Nat) (sharesClaimedGpuSlot : Bool) : AdmitDecision :=
  if cfg.resource_isolation && hasFailedDeployment s tid then
    .Deny .TenantQuarantined
  else if cfg.max_replicas_per_tenant < nonTerminalCount s tid + requested then
    .Deny .ReplicaLimitExceeded
  else if !cfg.enable_gpu_sharing && sharesClaimedGpuSlot then
    .Deny .ExclusiveGpuRequired
  else .Allow

/-- Modelled from the spec: the external `deploy` entry point (section 6),
admission gating the store mutation (sections 4.2, 5); absent from the
source. -/
def deploy (cfg : PluginConfig) (s : Store) (tid m : String)
    (replicas now fid : Nat) (gpuShare : Bool) : Except ServingError Store :=
  match admission cfg s tid replicas gpuShare with
  | .Deny r => .error r
  | .Allow => create s tid m now fid

/-- Modelled from the spec: the external `scale` entry point (section 6):
a replica-count change is admitted (section 4.2) and then moves the
deployment Running → Scaling (section 4.3); absent from the source. -/
def scale (cfg : PluginConfig) (s : Store) (did replicas : Nat)
    (gpuShare : Bool) : Except ServingError Store :=
  match findById s did with
  | none => .error .NotFound
  | some d =>
      match admission cfg s d.tenant_id replicas gpuShare with
      | .Deny r => .error r
      | .Allow => update_status s did .Scaling

/-- One call against the deployment store. -/
inductive StoreOp where
  | createOp (tid m : String) (now fid : Nat)
  | updateStatusOp (did : Nat) (st : DeploymentStatus)
  | recordRequestOp (did now : Nat)
  | removeOp (did : Nat)
  | deployOp (tid m : String) (replicas now fid : Nat) (gpuShare : Bool)
  | scaleOp (did replicas : Nat) (gpuShare : Bool)

/-- Run one call, returning the typed result (section 7: errors are
returned, never terminate the process). -/
def runStoreOp (cfg : PluginConfig) (s : Store) :
    StoreOp → Except ServingError Store
  | .createOp tid m now fid => create s tid m now fid
  | .updateStatusOp did st => update_status s did st
  | .recordRequestOp did now => record_request s did now
  | .removeOp did => remove s did
  | .deployOp tid m r now fid g => deploy cfg s tid m r now fid g
  | .scaleOp did r g => scale cfg s did r g

/-- State after one call: a failing call leaves the store unchanged. -/
def execStoreOp (cfg : PluginConfig) (s : Store) (op : StoreOp) : Store :=
  match runStoreOp cfg s op with
  | .ok s2 => s2
  | .error _ => s

/-- State after a finite sequence of calls. -/
def execStoreOps (cfg : PluginConfig) : Store → List StoreOp → Store
  | s, [] => s
  | s, op :: rest => execStoreOps cfg (execStoreOp cfg s op) rest

/-- A call is a `deploy` asking for at least one replica, or a `scale`. -/
def deployOrScale : StoreOp → Bool
  | .deployOp _ _ r _ _ _ => decide (1 ≤ r)
  | .scaleOp _ _ _ => true
  | _ => false

/-- `record_request` iterated `N` times (failing calls keep the store). -/
def iterateRecord (did now : Nat) : Nat → Store → Store
  | 0, s => s
  | n + 1, s =>
      iterateRecord did now n
        (match record_request s did now with
          | .ok s2 => s2
          | .error _ => s)

/-- The id a call would insert under, when it is a `create` or `deploy`. -/
def createdId : StoreOp → Option Nat
  | .createOp _ _ _ fid => some fid
  | .deployOp _ _ _ _ fid _ => some fid
  | _ => none

/-- Any id the call inserts is not already a key of the store (the
source's `HashMap` is keyed by freshly generated Uuids). -/
def freshFor (op : StoreOp) (s : Store) : Prop :=
  ∀ fid, createdId op = some fid → fid ∉ s.map (fun d => d.id)

/-- The store's keys are pairwise distinct (a `HashMap` invariant). -/
def uniqueIds (s : Store) : Prop :=
  (s.map (fun d => d.id)).Nodup

instance (op : StoreOp) (s : Store) : Decidable (freshFor op s) := by
  unfold freshFor
  infer_instance

instance (s : Store) : Decidable (uniqueIds s) := by
  unfold uniqueIds
  infer_instance

/-- Modelled from the spec: the MetricsAggregator (section 4.4); absent
from the source.  A pure recomputation over a read-only view of the state:
`active_deployments` counts Running and Scaling records; the total-request
running total, the ever-created total and the latency accumulator live
outside the store and are passed in.  The returned state is the input
state, untouched. -/
def recompute_metrics (ps : PluginState) (totalEver requestsTotal : Nat)
    (latency : Rat) : SystemMetrics × PluginState :=
  ( { total_deployments := totalEver
      active_deployments :=
        (ps.active_deployments.filter
          (fun d => d.status == .Running || d.status == .Scaling)).length
      total_requests := requestsTotal
      average_latency_ms := latency }
  , ps )

/-- One call a caller can make on the plugin (`impl MultiTenantServingPlugin`,
`src/main.rs:101-221`): the read accessors, the tier listing, and the two
display routines. -/
inductive ProgramOp where
  | nameOp
  | versionOp
  | descriptionOp
  | pricingTiersOp
  | runOp
  | runUiOp

/-- The plugin after one call.  Every method of the source takes `&self`;
none acquires the write half of the `RwLock`, so the state after each call
is the state before it. -/
def stepProgram (p : MultiTenantServingPlugin) : ProgramOp → MultiTenantServingPlugin
  | .nameOp => p
  | .versionOp => p
  | .descriptionOp => p
  | .pricingTiersOp => p
  | .runOp => p
  | .runUiOp => p

/-- The plugin after a finite sequence of calls. -/
def runProgram : MultiTenantServingPlugin → List ProgramOp → MultiTenantServingPlugin
  | p, [] => p
  | p, op :: rest => runProgram (stepProgram p op) rest

/-- The plugin value `new` yields (it is total, returning `Ok` always). -/
def samplePlugin : MultiTenantServingPlugin :=
  { info :=
      { id := "adios.multi-tenant-serving"
        name := "AdiOS Multi-Tenant Serving"
        version := "0.1.0"
        description := "Enterprise multi-tenant model serving infrastructure"
        author := "TridentBiz Team"
        category := "enterprise" }
    state := PluginState.default }

/-- C8: `pricing_tiers` is deterministic and independent of plugin state:
for every plugin instance it returns exactly three tiers, in order named
Starter, Professional, Enterprise with prices 500000, 2500000 and
10000000 cents. -/
theorem pricing_tiers_fixed (p q : MultiTenantServingPlugin) :
    p.pricing_tiers = q.pricing_tiers
  ∧ p.pricing_tiers.length = 3
  ∧ p.pricing_tiers.map (fun t => (t.name, t.price))
      = [("Starter", 500000), ("Professional", 2500000),
         ("Enterprise", 10000000)] := by
  refine ⟨rfl, rfl, rfl⟩

/-- C9: `PluginState::default` yields zeroed counters and the fixed
configuration: auto-scaling on, ten replicas per tenant, resource
isolation on, GPU sharing on. -/
theorem pluginState_default_spec :
    PluginState.default.system_metrics.total_deployments = 0
  ∧ PluginState.default.system_metrics.active_deployments = 0
  ∧ PluginState.default.system_metrics.total_requests = 0
  ∧ PluginState.default.config.auto_scaling = true
  ∧ PluginState.default.config.max_replicas_per_tenant = 10
  ∧ PluginState.default.config.resource_isolation = true
  ∧ PluginState.default.config.enable_gpu_sharing = true := by
  refine ⟨rfl, rfl, rfl, rfl, rfl, rfl, rfl⟩

/-- C10: `MultiTenantServingPlugin::new` never fails, and the plugin it
returns answers `name()` with "AdiOS Multi-Tenant Serving" and
`description()` with the non-empty string
"Enterprise multi-tenant model serving infrastructure". -/
theorem new_total_and_metadata (v : String) :
    ∃ p, MultiTenantServingPlugin.new v = .ok p
      ∧ p.name = "AdiOS Multi-Tenant Serving"
      ∧ p.description = "Enterprise multi-tenant model serving infrastructure"
      ∧ p.description ≠ "" := by
  refine ⟨_, rfl, rfl, rfl, ?_⟩
  show "Enterprise multi-tenant model serving infrastructure" ≠ ""
  decide

/-- Each method leaves the plugin as it was: all take `&self`. -/
theorem stepProgram_eq (p : MultiTenantServingPlugin) (op : ProgramOp) :
    stepProgram p op = p := by
  cases op <;> rfl

/-- A sequence of method calls leaves the plugin as it was. -/
theorem runProgram_eq_self (ops : List ProgramOp)
    (p : MultiTenantServingPlugin) : runProgram p ops = p := by
  induction ops generalizing p with
  | nil => rfl
  | cons op rest ih => rw [runProgram, stepProgram_eq, ih]

/-- C6: the plugin's deployment mapping starts empty and no operation of
the program inserts into it: after any sequence of calls it is still
empty. -/
theorem active_deployments_never_populated (v : String)
    (p : MultiTenantServingPlugin) (ops : List ProgramOp)
    (h : MultiTenantServingPlugin.new v = .ok p) :
    PluginState.default.active_deployments = []
  ∧ (runProgram p ops).state.active_deployments = [] := by
  refine ⟨rfl, ?_⟩
  simp only [MultiTenantServingPlugin.new, Except.ok.injEq] at h
  rw [runProgram_eq_self, ← h]
  rfl

/-- Witness for C6 at a concrete plugin and call sequence. -/
theorem active_deployments_never_populated_witness :
    PluginState.default.active_deployments = ([] : Store)
  ∧ (runProgram samplePlugin
      [ProgramOp.runOp, ProgramOp.pricingTiersOp, ProgramOp.runUiOp]
     ).state.active_deployments = [] :=
  active_deployments_never_populated "0.1.0" samplePlugin
    [ProgramOp.runOp, ProgramOp.pricingTiersOp, ProgramOp.runUiOp] rfl

/-- C7: `average_latency_ms` is the hardcoded 45.2 in the default state
and no operation of the program ever changes it. -/
theorem average_latency_hardcoded (v : String)
    (p : MultiTenantServingPlugin) (ops : List ProgramOp)
    (h : MultiTenantServingPlugin.new v = .ok p) :
    PluginState.default.system_metrics.average_latency_ms = 452 / 10
  ∧ (runProgram p ops).state.system_metrics.average_latency_ms = 452 / 10 := by
  refine ⟨rfl, ?_⟩
  simp only [MultiTenantServingPlugin.new, Except.ok.injEq] at h
  rw [runProgram_eq_self, ← h]
  rfl

/-- Witness for C7 at a concrete plugin and call sequence. -/
theorem average_latency_hardcoded_witness :
    PluginState.default.system_metrics.average_latency_ms = 452 / 10
  ∧ (runProgram samplePlugin [ProgramOp.nameOp, ProgramOp.runOp]
     ).state.system_metrics.average_latency_ms = 452 / 10 :=
  average_latency_hardcoded "0.1.0" samplePlugin
    [ProgramOp.nameOp, ProgramOp.runOp] rfl

/-- C5: the recomputed `active_deployments` metric counts exactly the
deployments whose status is Running or Scaling, and the recomputation
returns the state unchanged, mutating no deployment record. -/
theorem metrics_active_count (ps : PluginState) (te rt : Nat) (lat : Rat) :
    (recompute_metrics ps te rt lat).1.active_deployments
      = ps.active_deployments.countP
          (fun d => decide (d.status = .Running ∨ d.status = .Scaling))
  ∧ (recompute_metrics ps te rt lat).2 = ps := by
  refine ⟨?_, rfl⟩
  rw [recompute_metrics, ← List.countP_eq_length_filter]
  have hpred :
      (fun d : TenantDeployment =>
          d.status == DeploymentStatus.Running ||
            d.status == DeploymentStatus.Scaling)
        = fun d : TenantDeployment =>
            decide (d.status = .Running ∨ d.status = .Scaling) := by
    funext d
    rcases d with ⟨_, _, _, st, _, _, _⟩
    cases st <;> rfl
  rw [hpred]

/-- An id that is not a key of the store is not found. -/
theorem findById_eq_none_of_not_mem (s : Store) (i : Nat)
    (h : i ∉ s.map (fun d => d.id)) : findById s i = none := by
  induction s with
  | nil => rfl
  | cons d rest ih =>
    rw [findById]
    rw [List.map_cons, List.mem_cons] at h
    push_neg at h
    rw [if_neg (fun hc => h.1 hc.symm)]
    exact ih h.2

/-- A found record is a member of the store and carries the searched id. -/
theorem findById_some_mem (s : Store) (i : Nat) (d : TenantDeployment)
    (h : findById s i = some d) : d ∈ s ∧ d.id = i := by
  induction s with
  | nil => exact absurd h (by simp [findById])
  | cons e rest ih =>
    rw [findById] at h
    by_cases he : e.id = i
    · rw [if_pos he] at h
      injection h with h
      exact ⟨by rw [h]; exact List.mem_cons_self d rest, by rw [← h]; exact he⟩
    · rw [if_neg he] at h
      exact ⟨List.mem_cons_of_mem e (ih h).1, (ih h).2⟩

/-- Updating one key only changes the lookup of that key, by `f`. -/
theorem findById_updateById (f : TenantDeployment → TenantDeployment)
    (hid : ∀ d, (f d).id = d.id) (s : Store) (i j : Nat) :
    findById (updateById f s j) i
      = if i = j then (findById s i).map f else findById s i := by
  induction s with
  | nil => by_cases hij : i = j <;> simp [updateById, findById, hij]
  | cons d rest ih =>
    by_cases hd : d.id = j
    · rw [updateById, if_pos hd]
      by_cases hij : i = j
      · rw [if_pos hij, findById, findById, hid d,
          if_pos (by rw [hd, hij]), if_pos (by rw [hd, hij])]
        rfl
      · rw [if_neg hij, findById, findById,
          if_neg (by rw [hid d, hd]; exact fun hc => hij hc.symm),
          if_neg (by rw [hd]; exact fun hc => hij hc.symm)]
    · rw [updateById, if_neg hd]
      by_cases hdi : d.id = i
      · rw [findById, if_pos hdi, findById, if_pos hdi]
        have hij : ¬ i = j := by rw [← hdi]; exact hd
        rw [if_neg hij]
      · rw [findById, if_neg hdi, findById, if_neg hdi, ih]

/-- With distinct keys, erasing one key removes exactly that lookup. -/
theorem findById_eraseById (s : Store) (i j : Nat) (hu : uniqueIds s) :
    findById (eraseById s j) i
      = if i = j then none else findById s i := by
  induction s with
  | nil => by_cases hij : i = j <;> simp [eraseById, findById, hij]
  | cons d rest ih =>
    have hu2 : uniqueIds rest := by
      unfold uniqueIds at hu ⊢
      rw [List.map_cons] at hu
      exact (List.nodup_cons.mp hu).2
    have hdnotin : d.id ∉ rest.map (fun e => e.id) := by
      unfold uniqueIds at hu
      rw [List.map_cons] at hu
      exact (List.nodup_cons.mp hu).1
    by_cases hd : d.id = j
    · rw [eraseById, if_pos hd]
      by_cases hij : i = j
      · rw [if_pos hij]
        exact findById_eq_none_of_not_mem rest i (by rw [hij, ← hd]; exact hdnotin)
      · rw [if_neg hij, findById,
          if_neg (by rw [hd]; exact fun hc => hij hc.symm)]
    · rw [eraseById, if_neg hd]
      by_cases hdi : d.id = i
      · have hij : ¬ i = j := by rw [← hdi]; exact hd
        rw [if_neg hij, findById, if_pos hdi, findById, if_pos hdi]
      · rw [findById, if_neg hdi, findById, if_neg hdi, ih hu2]

/-- Every allowed transition starts from a non-terminal status: the table
has no row leaving Stopped or Failed. -/
theorem nonTerminal_of_allowed :
    ∀ a b : DeploymentStatus,
      allowedTransition a b = true → nonTerminalStatus a = true := by
  intro a b
  cases a <;> cases b <;> decide

/-- A terminal status allows no transition at all. -/
theorem terminal_allows_nothing :
    ∀ a b : DeploymentStatus,
      (a = .Stopped ∨ a = .Failed) → allowedTransition a b = false := by
  intro a b h
  rcases h with h | h <;> subst h <;> cases b <;> rfl

/-- A deployment present in the store and found by id; sample records used
by the concrete witnesses. -/
def depRunning : TenantDeployment :=
  { id := 1
    tenant_id := "acme"
    model_name := "gpt-small"
    status := .Running
    created_at := 0
    last_request := 0
    request_count := 0 }

/-- A second running deployment of the same tenant. -/
def depRunning2 : TenantDeployment :=
  { id := 3
    tenant_id := "acme"
    model_name := "bert-base"
    status := .Running
    created_at := 0
    last_request := 0
    request_count := 2 }

/-- A stopped deployment of the same tenant. -/
def depStopped : TenantDeployment :=
  { id := 2
    tenant_id := "acme"
    model_name := "gpt-mid"
    status := .Stopped
    created_at := 0
    last_request := 3
    request_count := 4 }

/-- A small configuration capping each tenant at two replicas. -/
def cfgSmall : PluginConfig :=
  { auto_scaling := true
    max_replicas_per_tenant := 2
    resource_isolation := true
    enable_gpu_sharing := true }

/-- C1: a status transition outside the allowed-transitions table fails
with `InvalidTransition` and leaves the store unchanged; in particular a
Stopped or Failed deployment rejects every status transition and accepts
`remove`. -/
theorem update_status_invalid_rejected (cfg : PluginConfig) (s : Store)
    (did : Nat) (d : TenantDeployment) (st : DeploymentStatus)
    (hf : findById s did = some d) :
    (allowedTransition d.status st = false →
        update_status s did st = .error .InvalidTransition
      ∧ execStoreOp cfg s (.updateStatusOp did st) = s)
  ∧ ((d.status = .Stopped ∨ d.status = .Failed) →
        update_status s did st = .error .InvalidTransition
      ∧ execStoreOp cfg s (.updateStatusOp did st) = s
      ∧ remove s did = .ok (eraseById s did)) := by
  have hmain : allowedTransition d.status st = false →
      update_status s did st = .error .InvalidTransition
    ∧ execStoreOp cfg s (.updateStatusOp did st) = s := by
    intro hna
    have hupd : update_status s did st = .error .InvalidTransition := by
      simp only [update_status, hf, hna]
      rfl
    refine ⟨hupd, ?_⟩
    simp only [execStoreOp, runStoreOp, hupd]
  refine ⟨hmain, ?_⟩
  intro hterm
  have hna := terminal_allows_nothing d.status st hterm
  refine ⟨(hmain hna).1, (hmain hna).2, ?_⟩
  simp only [remove, hf]
  rw [if_pos hterm]

/-- Witness for C1: in a store holding one Stopped deployment, a
transition to Running is rejected, the store survives unchanged, and
`remove` succeeds. -/
theorem update_status_invalid_rejected_witness :
    update_status [depStopped] 2 .Running = .error .InvalidTransition
  ∧ execStoreOp cfgSmall [depStopped] (.updateStatusOp 2 .Running)
      = [depStopped]
  ∧ remove [depStopped] 2 = .ok (eraseById [depStopped] 2) :=
  (update_status_invalid_rejected cfgSmall [depStopped] 2 depStopped
      .Running (by decide)).2 (Or.inl (by decide))

/-- In any store, `hasActiveDup` detects exactly an active
(non-Stopped/Failed) deployment of the same tenant/model pair. -/
theorem hasActiveDup_iff (s : Store) (tid m : String) :
    hasActiveDup s tid m = true ↔
      ∃ d ∈ s, d.tenant_id = tid ∧ d.model_name = m ∧
        d.status ≠ .Stopped ∧ d.status ≠ .Failed := by
  unfold hasActiveDup
  rw [List.any_eq_true]
  constructor
  · rintro ⟨d, hd, hp⟩
    simp only [Bool.and_eq_true, beq_iff_eq, Bool.not_eq_true',
      beq_eq_false_iff_ne] at hp
    exact ⟨d, hd, hp.1.1.1, hp.1.1.2, hp.1.2, hp.2⟩
  · rintro ⟨d, hd, h1, h2, h3, h4⟩
    refine ⟨d, hd, ?_⟩
    simp only [Bool.and_eq_true, beq_iff_eq, Bool.not_eq_true',
      beq_eq_false_iff_ne]
    exact ⟨⟨⟨h1, h2⟩, h3⟩, h4⟩

/-- C2: `create` fails with `DuplicateTenantModel` exactly when an active
(non-Stopped/Failed) deployment of the same tenant/model pair exists, and
otherwise inserts a new record with status Deploying and counter 0. -/
theorem create_inserts_or_rejects (s : Store) (tid m : String)
    (now fid : Nat) :
    (create s tid m now fid = .error .DuplicateTenantModel ↔
       ∃ d ∈ s, d.tenant_id = tid ∧ d.model_name = m ∧
         d.status ≠ .Stopped ∧ d.status ≠ .Failed)
  ∧ ((¬ ∃ d ∈ s, d.tenant_id = tid ∧ d.model_name = m ∧
         d.status ≠ .Stopped ∧ d.status ≠ .Failed) →
       create s tid m now fid
         = .ok
             ({ id := fid
                tenant_id := tid
                model_name := m
                status := .Deploying
                created_at := now
                last_request := now
                request_count := 0 } :: s)) := by
  constructor
  · constructor
    · intro h
      by_cases hdup : hasActiveDup s tid m
      · exact (hasActiveDup_iff s tid m).mp hdup
      · exfalso
        unfold create at h
        rw [if_neg hdup] at h
        exact Except.noConfusion h
    · intro hex
      unfold create
      rw [if_pos ((hasActiveDup_iff s tid m).mpr hex)]
  · intro hnex
    have hdup : ¬ hasActiveDup s tid m = true :=
      fun hc => hnex ((hasActiveDup_iff s tid m).mp hc)
    unfold create
    rw [if_neg hdup]

/-- Witness for C2: a duplicate create on an active pair is rejected,
and a create in the empty store inserts the Deploying record. -/
theorem create_inserts_or_rejects_witness :
    create [depRunning] "acme" "gpt-small" 7 9
      = .error .DuplicateTenantModel
  ∧ create [] "acme" "gpt-small" 7 9
      = .ok
          [{ id := 9
             tenant_id := "acme"
             model_name := "gpt-small"
             status := .Deploying
             created_at := 7
             last_request := 7
             request_count := 0 }] :=
  ⟨(create_inserts_or_rejects [depRunning] "acme" "gpt-small" 7 9).1.mpr
      (by decide),
   (create_inserts_or_rejects [] "acme" "gpt-small" 7 9).2 (by decide)⟩

/-- Updating one record cannot raise a count whose predicate the updated
record would have had to satisfy already. -/
theorem countP_updateById_le (p : TenantDeployment → Bool)
    (f : TenantDeployment → TenantDeployment) (s : Store) (j : Nat)
    (h : ∀ d, findById s j = some d → p (f d) = true → p d = true) :
    (updateById f s j).countP p ≤ s.countP p := by
  induction s with
  | nil => exact Nat.le_refl _
  | cons d rest ih =>
    by_cases hd : d.id = j
    · have hfd : findById (d :: rest) j = some d := by
        rw [findById, if_pos hd]
      rw [updateById, if_pos hd, List.countP_cons, List.countP_cons]
      have himp := h d hfd
      by_cases hpf : p (f d) = true
      · rw [if_pos hpf, if_pos (himp hpf)]
      · rw [if_neg hpf]
        exact Nat.le_add_right _ _
    · have hfind : findById (d :: rest) j = findById rest j := by
        rw [findById, if_neg hd]
      rw [updateById, if_neg hd, List.countP_cons, List.countP_cons]
      have := ih (fun e he hp => h e (by rw [hfind]; exact he) hp)
      omega

/-- A successful status update never raises any tenant's non-terminal
count: the table's source states are all non-terminal. -/
theorem nonTerminalCount_update_status_le (s : Store) (j : Nat)
    (st : DeploymentStatus) (s2 : Store) (tid : String)
    (h : update_status s j st = .ok s2) :
    nonTerminalCount s2 tid ≤ nonTerminalCount s tid := by
  cases hf : findById s j with
  | none =>
    simp only [update_status, hf] at h
    exact Except.noConfusion h
  | some d =>
    simp only [update_status, hf] at h
    by_cases ha : allowedTransition d.status st = true
    · rw [if_pos ha] at h
      injection h with h
      rw [← h]
      apply countP_updateById_le
      intro e he hpe
      rw [hf] at he
      injection he with he
      rw [← he] at hpe ⊢
      rw [Bool.and_eq_true] at hpe ⊢
      exact ⟨hpe.1, nonTerminal_of_allowed d.status st ha⟩
    · rw [if_neg ha] at h
      exact Except.noConfusion h

/-- A successful create adds exactly one non-terminal deployment, for the
creating tenant. -/
theorem nonTerminalCount_create (s : Store) (tid m : String)
    (now fid : Nat) (s2 : Store) (t : String)
    (h : create s tid m now fid = .ok s2) :
    nonTerminalCount s2 t
      = nonTerminalCount s t + (if tid == t then 1 else 0) := by
  unfold create at h
  by_cases hdup : hasActiveDup s tid m = true
  · rw [if_pos hdup] at h
    exact Except.noConfusion h
  · rw [if_neg hdup] at h
    injection h with h
    rw [← h]
    unfold nonTerminalCount
    rw [List.countP_cons]
    simp [nonTerminalStatus]

/-- An `Allow` decision certifies that the tenant's non-terminal count
plus the requested replicas fits under the per-tenant cap. -/
theorem admission_allow_bound (cfg : PluginConfig) (s : Store)
    (tid : String) (r : Nat) (g : Bool)
    (h : admission cfg s tid r g = .Allow) :
    nonTerminalCount s tid + r ≤ cfg.max_replicas_per_tenant := by
  unfold admission at h
  by_cases h1 : (cfg.resource_isolation && hasFailedDeployment s tid) = true
  · rw [if_pos h1] at h
    exact AdmitDecision.noConfusion h
  · rw [if_neg h1] at h
    by_cases h2 : cfg.max_replicas_per_tenant < nonTerminalCount s tid + r
    · rw [if_pos h2] at h
      exact AdmitDecision.noConfusion h
    · exact Nat.le_of_not_lt h2

/-- When the quarantine check passes and the cap would be exceeded,
admission denies with `ReplicaLimitExceeded`. -/
theorem admission_deny_replica (cfg : PluginConfig) (s : Store)
    (tid : String) (r : Nat) (g : Bool)
    (h1 : (cfg.resource_isolation && hasFailedDeployment s tid) = false)
    (h2 : cfg.max_replicas_per_tenant < nonTerminalCount s tid + r) :
    admission cfg s tid r g = .Deny .ReplicaLimitExceeded := by
  unfold admission
  rw [if_neg (by rw [h1]; exact Bool.false_ne_true), if_pos h2]

/-- The per-tenant cap holds of every tenant in a store. -/
def tenantLimitInv (cfg : PluginConfig) (s : Store) : Prop :=
  ∀ tid, nonTerminalCount s tid ≤ cfg.max_replicas_per_tenant

/-- One admitted deploy (of at least one replica) or scale call keeps
every tenant under the cap. -/
theorem execStoreOp_preserves_limit (cfg : PluginConfig) (s : Store)
    (op : StoreOp) (hop : deployOrScale op = true)
    (hinv : tenantLimitInv cfg s) :
    tenantLimitInv cfg (execStoreOp cfg s op) := by
  cases op with
  | createOp tid m now fid => exact absurd hop (by simp [deployOrScale])
  | updateStatusOp did st => exact absurd hop (by simp [deployOrScale])
  | recordRequestOp did now => exact absurd hop (by simp [deployOrScale])
  | removeOp did => exact absurd hop (by simp [deployOrScale])
  | deployOp tid m r now fid g =>
    have hr : 1 ≤ r := by
      simp only [deployOrScale, decide_eq_true_eq] at hop
      exact hop
    simp only [execStoreOp, runStoreOp]
    cases hd : deploy cfg s tid m r now fid g with
    | error e => exact hinv
    | ok s2 =>
      show tenantLimitInv cfg s2
      intro t
      unfold deploy at hd
      cases hadm : admission cfg s tid r g with
      | Deny reason =>
        rw [hadm] at hd
        exact Except.noConfusion hd
      | Allow =>
        rw [hadm] at hd
        have hb := admission_allow_bound cfg s tid r g hadm
        rw [nonTerminalCount_create s tid m now fid s2 t hd]
        by_cases ht : tid = t
        · rw [ht] at hb ⊢
          rw [if_pos (by rw [beq_iff_eq])]
          omega
        · rw [if_neg (by rw [beq_iff_eq]; exact ht)]
          exact hinv t
  | scaleOp did r g =>
    simp only [execStoreOp, runStoreOp]
    cases hd : scale cfg s did r g with
    | error e => exact hinv
    | ok s2 =>
      show tenantLimitInv cfg s2
      intro t
      cases hf : findById s did with
      | none =>
        simp only [scale, hf] at hd
        exact Except.noConfusion hd
      | some d =>
        simp only [scale, hf] at hd
        cases hadm : admission cfg s d.tenant_id r g with
        | Deny reason =>
          rw [hadm] at hd
          exact Except.noConfusion hd
        | Allow =>
          rw [hadm] at hd
          exact Nat.le_trans
            (nonTerminalCount_update_status_le s did .Scaling s2 t hd)
            (hinv t)

/-- A sequence of deploy and scale calls keeps every tenant under the
cap. -/
theorem execStoreOps_preserves_limit (cfg : PluginConfig)
    (ops : List StoreOp) :
    ∀ s : Store, (∀ op ∈ ops, deployOrScale op = true) →
      tenantLimitInv cfg s → tenantLimitInv cfg (execStoreOps cfg s ops) := by
  induction ops with
  | nil => intro s _ hinv; exact hinv
  | cons op rest ih =>
    intro s hops hinv
    rw [execStoreOps]
    exact ih (execStoreOp cfg s op)
      (fun o ho => hops o (List.mem_cons_of_mem op ho))
      (execStoreOp_preserves_limit cfg s op
        (hops op (List.mem_cons_self op rest)) hinv)

/-- C3: after any finite sequence of deploy (of at least one replica) and
scale calls starting from the empty store, no tenant's count of
non-terminal (Deploying/Running/Scaling) deployments exceeds
`max_replicas_per_tenant`; and admission, its quarantine check passing,
denies with `ReplicaLimitExceeded` whenever adding the requested replicas
would exceed that limit. -/
theorem replica_limit_invariant (cfg : PluginConfig) (ops : List StoreOp)
    (hops : ∀ op ∈ ops, deployOrScale op = true) :
    (∀ tid, nonTerminalCount (execStoreOps cfg [] ops) tid
        ≤ cfg.max_replicas_per_tenant)
  ∧ (∀ (s : Store) (tid : String) (r : Nat) (g : Bool),
      (cfg.resource_isolation && hasFailedDeployment s tid) = false →
      cfg.max_replicas_per_tenant < nonTerminalCount s tid + r →
      admission cfg s tid r g = .Deny .ReplicaLimitExceeded) :=
  ⟨execStoreOps_preserves_limit cfg ops [] hops (fun _ => Nat.zero_le _),
   fun s tid r g h1 h2 => admission_deny_replica cfg s tid r g h1 h2⟩

/-- Witness for C3: three one-replica deploys under a cap of two leave the
tenant within the cap, and a further request on a full tenant is denied
with `ReplicaLimitExceeded`. -/
theorem replica_limit_invariant_witness :
    nonTerminalCount
      (execStoreOps cfgSmall []
        [ .deployOp "acme" "gpt-small" 1 0 10 false
        , .deployOp "acme" "gpt-mid" 1 1 11 false
        , .deployOp "acme" "gpt-large" 1 2 12 false ]) "acme"
      ≤ cfgSmall.max_replicas_per_tenant
  ∧ admission cfgSmall [depRunning, depRunning2] "acme" 1 false
      = .Deny .ReplicaLimitExceeded :=
  ⟨(replica_limit_invariant cfgSmall
      [ .deployOp "acme" "gpt-small" 1 0 10 false
      , .deployOp "acme" "gpt-mid" 1 1 11 false
      , .deployOp "acme" "gpt-large" 1 2 12 false ] (by decide)).1 "acme",
   (replica_limit_invariant cfgSmall [] (by decide)).2
      [depRunning, depRunning2] "acme" 1 false (by decide) (by decide)⟩

/-- A successful status update preserves every record's request counter. -/
theorem request_count_update_status (s : Store) (j : Nat)
    (st : DeploymentStatus) (s2 : Store) (did : Nat)
    (d d2 : TenantDeployment)
    (h : update_status s j st = .ok s2)
    (hf : findById s did = some d)
    (hf2 : findById s2 did = some d2) :
    d.request_count ≤ d2.request_count := by
  cases hfj : findById s j with
  | none =>
    simp only [update_status, hfj] at h
    exact Except.noConfusion h
  | some e =>
    simp only [update_status, hfj] at h
    by_cases ha : allowedTransition e.status st = true
    · rw [if_pos ha] at h
      injection h with h
      rw [← h] at hf2
      rw [findById_updateById (fun x => { x with status := st })
        (fun x => rfl) s did j] at hf2
      by_cases hdj : did = j
      · rw [if_pos hdj, hf] at hf2
        injection hf2 with h2
        rw [← h2]
      · rw [if_neg hdj, hf] at hf2
        injection hf2 with h2
        rw [h2]
    · rw [if_neg ha] at h
      exact Except.noConfusion h

/-- A successful `record_request` never lowers any record's counter. -/
theorem request_count_record (s : Store) (j now2 : Nat) (s2 : Store)
    (did : Nat) (d d2 : TenantDeployment)
    (h : record_request s j now2 = .ok s2)
    (hf : findById s did = some d)
    (hf2 : findById s2 did = some d2) :
    d.request_count ≤ d2.request_count := by
  cases hfj : findById s j with
  | none =>
    simp only [record_request, hfj] at h
    exact Except.noConfusion h
  | some e =>
    simp only [record_request, hfj] at h
    by_cases hrun : e.status = .Running
    · rw [if_pos hrun] at h
      injection h with h
      rw [← h] at hf2
      rw [findById_updateById
        (fun x => { x with request_count := x.request_count + 1
                           last_request := now2 })
        (fun x => rfl) s did j] at hf2
      by_cases hdj : did = j
      · rw [if_pos hdj, hf] at hf2
        injection hf2 with h2
        rw [← h2]
        exact Nat.le_succ _
      · rw [if_neg hdj, hf] at hf2
        injection hf2 with h2
        rw [h2]
    · rw [if_neg hrun] at h
      exact Except.noConfusion h

/-- A successful create of a fresh id leaves every existing record's
counter in place. -/
theorem request_count_create (s : Store) (tid m : String) (now fid : Nat)
    (s2 : Store) (did : Nat) (d d2 : TenantDeployment)
    (h : create s tid m now fid = .ok s2)
    (hfr : fid ∉ s.map (fun e => e.id))
    (hf : findById s did = some d)
    (hf2 : findById s2 did = some d2) :
    d.request_count ≤ d2.request_count := by
  unfold create at h
  by_cases hdup : hasActiveDup s tid m = true
  · rw [if_pos hdup] at h
    exact Except.noConfusion h
  · rw [if_neg hdup] at h
    injection h with h
    rw [← h] at hf2
    have hmem := findById_some_mem s did d hf
    have hne : ¬ fid = did := by
      intro hc
      rw [hc] at hfr
      exact hfr (List.mem_map.mpr ⟨d, hmem.1, hmem.2⟩)
    rw [findById, if_neg hne] at hf2
    rw [hf] at hf2
    injection hf2 with h2
    rw [h2]

/-- A successful remove, under distinct keys, leaves every surviving
record's counter in place. -/
theorem request_count_remove (s : Store) (j : Nat) (s2 : Store)
    (did : Nat) (d d2 : TenantDeployment)
    (h : remove s j = .ok s2) (hu : uniqueIds s)
    (hf : findById s did = some d)
    (hf2 : findById s2 did = some d2) :
    d.request_count ≤ d2.request_count := by
  cases hfj : findById s j with
  | none =>
    simp only [remove, hfj] at h
    exact Except.noConfusion h
  | some e =>
    simp only [remove, hfj] at h
    by_cases hst : e.status = .Stopped ∨ e.status = .Failed
    · rw [if_pos hst] at h
      injection h with h
      rw [← h] at hf2
      rw [findById_eraseById s did j hu] at hf2
      by_cases hdj : did = j
      · rw [if_pos hdj] at hf2
        exact Option.noConfusion hf2
      · rw [if_neg hdj, hf] at hf2
        injection hf2 with h2
        rw [h2]
    · rw [if_neg hst] at h
      exact Except.noConfusion h

/-- Across any single store call that creates only fresh ids, on a store
with distinct keys, no deployment's request counter decreases. -/
theorem request_count_mono (cfg : PluginConfig) (s : Store) (op : StoreOp)
    (did : Nat) (d d2 : TenantDeployment)
    (hfresh : freshFor op s) (hu : uniqueIds s)
    (hf : findById s did = some d)
    (hf2 : findById (execStoreOp cfg s op) did = some d2) :
    d.request_count ≤ d2.request_count := by
  cases op with
  | createOp tid m now2 fid =>
    simp only [execStoreOp, runStoreOp] at hf2
    cases hcr : create s tid m now2 fid with
    | error e =>
      simp only [hcr] at hf2
      rw [hf] at hf2
      injection hf2 with h2
      rw [h2]
    | ok s2 =>
      simp only [hcr] at hf2
      exact request_count_create s tid m now2 fid s2 did d d2 hcr
        (hfresh fid rfl) hf hf2
  | updateStatusOp j st =>
    simp only [execStoreOp, runStoreOp] at hf2
    cases hup : update_status s j st with
    | error e =>
      simp only [hup] at hf2
      rw [hf] at hf2
      injection hf2 with h2
      rw [h2]
    | ok s2 =>
      simp only [hup] at hf2
      exact request_count_update_status s j st s2 did d d2 hup hf hf2
  | recordRequestOp j now2 =>
    simp only [execStoreOp, runStoreOp] at hf2
    cases hrr : record_request s j now2 with
    | error e =>
      simp only [hrr] at hf2
      rw [hf] at hf2
      injection hf2 with h2
      rw [h2]
    | ok s2 =>
      simp only [hrr] at hf2
      exact request_count_record s j now2 s2 did d d2 hrr hf hf2
  | removeOp j =>
    simp only [execStoreOp, runStoreOp] at hf2
    cases hrm : remove s j with
    | error e =>
      simp only [hrm] at hf2
      rw [hf] at hf2
      injection hf2 with h2
      rw [h2]
    | ok s2 =>
      simp only [hrm] at hf2
      exact request_count_remove s j s2 did d d2 hrm hu hf hf2
  | deployOp tid m r now2 fid g =>
    simp only [execStoreOp, runStoreOp] at hf2
    cases hdp : deploy cfg s tid m r now2 fid g with
    | error e =>
      simp only [hdp] at hf2
      rw [hf] at hf2
      injection hf2 with h2
      rw [h2]
    | ok s2 =>
      simp only [hdp] at hf2
      unfold deploy at hdp
      cases hadm : admission cfg s tid r g with
      | Deny reason =>
        rw [hadm] at hdp
        exact Except.noConfusion hdp
      | Allow =>
        rw [hadm] at hdp
        exact request_count_create s tid m now2 fid s2 did d d2 hdp
          (hfresh fid rfl) hf hf2
  | scaleOp j r g =>
    simp only [execStoreOp, runStoreOp] at hf2
    cases hsc : scale cfg s j r g with
    | error e =>
      simp only [hsc] at hf2
      rw [hf] at hf2
      injection hf2 with h2
      rw [h2]
    | ok s2 =>
      simp only [hsc] at hf2
      cases hfj : findById s j with
      | none =>
        simp only [scale, hfj] at hsc
        exact Except.noConfusion hsc
      | some e2 =>
        simp only [scale, hfj] at hsc
        cases hadm : admission cfg s e2.tenant_id r g with
        | Deny reason =>
          rw [hadm] at hsc
          exact Except.noConfusion hsc
        | Allow =>
          rw [hadm] at hsc
          exact request_count_update_status s j .Scaling s2 did d d2 hsc hf hf2

/-- Iterating `record_request` on a Running deployment succeeds each time
and adds exactly one to the counter per call. -/
theorem iterateRecord_running (did now : Nat) :
    ∀ (N : Nat) (s : Store) (d : TenantDeployment),
      findById s did = some d → d.status = .Running →
      ∃ d2, findById (iterateRecord did now N s) did = some d2
        ∧ d2.request_count = d.request_count + N
        ∧ d2.status = .Running := by
  intro N
  induction N with
  | zero =>
    intro s d hf hs
    exact ⟨d, hf, rfl, hs⟩
  | succ n ih =>
    intro s d hf hs
    have hrec : record_request s did now
        = .ok (updateById
            (fun e => { e with request_count := e.request_count + 1
                               last_request := now }) s did) := by
      simp only [record_request, hf]
      rw [if_pos hs]
    have hfd2 : findById
        (updateById
          (fun e => { e with request_count := e.request_count + 1
                             last_request := now }) s did) did
        = some { d with request_count := d.request_count + 1
                        last_request := now } := by
      rw [findById_updateById
        (fun e => { e with request_count := e.request_count + 1
                           last_request := now })
        (fun x => rfl) s did did, if_pos rfl, hf]
      rfl
    obtain ⟨d2, h1, h2, h3⟩ := ih _ _ hfd2 hs
    refine ⟨d2, ?_, ?_, h3⟩
    · simp only [iterateRecord, hrec]
      exact h1
    · rw [h2]
      show d.request_count + 1 + n = d.request_count + (n + 1)
      omega

/-- C4: starting from counter 0, N successful `record_request` calls
leave the counter at N (stated for any starting counter: it rises by
exactly one per call); the call fails with `NotFound` for an absent id and
with `DeploymentNotServing` off the Running status; and across any store
call the counter never decreases. -/
theorem record_request_behavior (cfg : PluginConfig) (s : Store)
    (did now : Nat) :
    (findById s did = none → record_request s did now = .error .NotFound)
  ∧ (∀ d, findById s did = some d → d.status ≠ .Running →
      record_request s did now = .error .DeploymentNotServing)
  ∧ (∀ d N, findById s did = some d → d.status = .Running →
      ∃ d2, findById (iterateRecord did now N s) did = some d2
        ∧ d2.request_count = d.request_count + N
        ∧ d2.status = .Running)
  ∧ (∀ op d d2, freshFor op s → uniqueIds s →
      findById s did = some d →
      findById (execStoreOp cfg s op) did = some d2 →
      d.request_count ≤ d2.request_count) := by
  refine ⟨?_, ?_, ?_, ?_⟩
  · intro h
    simp only [record_request, h]
  · intro d hf hs
    simp only [record_request, hf]
    rw [if_neg hs]
  · intro d N hf hs
    exact iterateRecord_running did now N s d hf hs
  · intro op d d2 hfresh hu hf hf2
    exact request_count_mono cfg s op did d d2 hfresh hu hf hf2

/-- Witness for C4: an absent id yields `NotFound`, a Stopped deployment
yields `DeploymentNotServing`, three iterated calls on a Running
deployment with counter 0 leave the counter at 3, and a concrete call does
not lower the counter. -/
theorem record_request_behavior_witness :
    record_request [depRunning] 5 9 = .error .NotFound
  ∧ record_request [depStopped] 2 9 = .error .DeploymentNotServing
  ∧ findById (iterateRecord 1 9 3 [depRunning]) 1
      = some { depRunning with request_count := depRunning.request_count + 3
                               last_request := 9 }
  ∧ depRunning.request_count
      ≤ ({ depRunning with request_count := depRunning.request_count + 1
                           last_request := 9 } : TenantDeployment).request_count :=
  ⟨(record_request_behavior cfgSmall [depRunning] 5 9).1 (by decide),
   (record_request_behavior cfgSmall [depStopped] 2 9).2.1 depStopped
      (by decide) (by decide),
   by decide,
   (record_request_behavior cfgSmall [depRunning] 1 9).2.2.2
      (.recordRequestOp 1 9) depRunning
      { depRunning with request_count := depRunning.request_count + 1
                        last_request := 9 }
      (by decide) (by decide) (by decide) (by decide)⟩
